import Mathlib

/-!
Shallow embedding of the Build Event Protocol processing engine of the
bazel-stack-vscode extension (source file `bzl/view/events.ts`): the
build-event state tracker (`BuildEventState`), the item classifier of
`BuildEventProtocolView`, the `BuildFinishedItem` label computation, and
the `ProblemCollector` dispatch for failed actions.

Modeling conventions:
- TypeScript `undefined`-able fields become `Option`; `x?.y` becomes
  `Option.bind`; `x || []` becomes `Option.getD _ []`.
- JavaScript `Map` objects become insertion-ordered association lists
  (`Map.set` replaces in place or appends; `Map.get` is the first match).
- The recursive file-set resolution has no termination guarantee in the
  source (no visited-set, no depth bound), so it is embedded with an
  explicit `fuel` argument bounding the recursion depth of the JS call
  stack; a `none` result means the source recursion is still running at
  that depth (for a cyclic input, every depth returns `none`, which is the
  formal counterpart of the source recursing forever).
- Code that can throw (the `BuildFinishedItem` constructor, whose
  `Long.fromValue` calls throw a `TypeError` on `undefined` input before
  the `try` block is entered) is embedded in `Except String`.
- JS `Set<File>` deduplicates by object identity; decoded protobuf file
  records are modeled with structural equality, which agrees on the
  inputs considered here (distinct file records).
-/

namespace Bep

/-- `build_event_stream.File` (modeled fields: `name`, `uri`, `contents`).
All three are optional in the protobuf schema; the source asserts `name!`
where it uses it, so `name` is kept mandatory here. -/
structure File where
  name : String
  uri : Option String
  contents : Option String
deriving DecidableEq, Repr

/-- `BuildEventId.NamedSetOfFilesId`: the string key of a named file set. -/
structure NamedSetOfFilesId where
  id : String
deriving DecidableEq, Repr

/-- `build_event_stream.NamedSetOfFiles`: direct files plus references to
other named sets by id. Both lists are optional in the schema (the source
iterates `fileSet.files || []` and passes `fileSet.fileSets` through a
`!ids` guard). -/
structure NamedSetOfFiles where
  files : Option (List File)
  fileSets : Option (List NamedSetOfFilesId)
deriving DecidableEq, Repr

/-- `build_event_stream.TargetConfigured` (modeled field: `targetKind`). -/
structure TargetConfigured where
  targetKind : Option String
deriving DecidableEq, Repr

/-- `build_event_stream.WorkspaceConfig` (modeled field: `localExecRoot`). -/
structure WorkspaceConfig where
  localExecRoot : Option String
deriving DecidableEq, Repr

/-- `build_event_stream.BuildStarted` (modeled field: `startTimeMillis`,
a 64-bit millisecond timestamp; `none` models an absent field, for which
`Long.fromValue` throws). -/
structure BuildStarted where
  startTimeMillis : Option Int
deriving DecidableEq, Repr

/-- `build_event_stream.BuildFinished` (modeled fields: `overallSuccess`,
`finishTimeMillis`, and the `name` of the nested `exitCode`). An absent
`overallSuccess` coalesces to `false` under the source's truthiness test,
so it is modeled as `Bool`. -/
structure BuildFinished where
  overallSuccess : Bool
  finishTimeMillis : Option Int
  exitCodeName : Option String
deriving DecidableEq, Repr

/-- `failure_details.FailureDetail` (modeled fields: `message`,
`category`). -/
structure FailureDetail where
  message : Option String
  category : Option String
deriving DecidableEq, Repr

/-- One output group of `build_event_stream.TargetComplete` (modeled
field: `fileSets`, the named-file-set references). -/
structure OutputGroup where
  fileSets : Option (List NamedSetOfFilesId)
deriving DecidableEq, Repr

/-- `build_event_stream.TargetComplete` (modeled fields: `success`,
`outputGroup`, `failureDetail`). -/
structure TargetComplete where
  success : Bool
  outputGroup : Option (List OutputGroup)
  failureDetail : Option FailureDetail
deriving DecidableEq, Repr

/-- `build_event_stream.ActionExecuted` (modeled fields: `success`,
`type` — the tool mnemonic, asserted non-null as `action.type!` by the
source — and the `stderr`/`stdout` file references). -/
structure ActionExecuted where
  success : Bool
  type : String
  stderr : Option File
  stdout : Option File
deriving DecidableEq, Repr

/-- `build_event_stream.TestResult` (modeled field: `status`). -/
structure TestResult where
  status : Option String
deriving DecidableEq, Repr

/-- The `BazelBuildEvent` envelope, flattened: the `obe.sequenceNumber`
and the payload variants of `e.bes` together with the ids
(`bes.id.namedSet.id`, `bes.id.targetConfigured.label`) that accompany
them. Only the payloads the modeled handlers read are included. -/
structure BazelBuildEvent where
  sequenceNumber : Nat
  started : Option BuildStarted := none
  finished : Option BuildFinished := none
  action : Option ActionExecuted := none
  namedSetId : Option String := none
  namedSetOfFiles : Option NamedSetOfFiles := none
  configuredLabel : Option String := none
  configured : Option TargetConfigured := none
  completed : Option TargetComplete := none
  testResult : Option TestResult := none
deriving DecidableEq, Repr

/-- JavaScript `Map.set` on an insertion-ordered association list:
replace the value in place when the key is present, append otherwise. -/
def mapSet {α : Type} (k : String) (v : α) : List (String × α) → List (String × α)
  | [] => [(k, v)]
  | (k', v') :: rest => if k' = k then (k, v) :: rest else (k', v') :: mapSet k v rest

/-- JavaScript `Map.get`: the value at the first matching key, or
`none`. -/
def mapGet {α : Type} (k : String) : List (String × α) → Option α
  | [] => none
  | (k', v') :: rest => if k' = k then some v' else mapGet k rest

/-- `Set.add` of JS, on an insertion-ordered list representation: append
the file if it is not already present. -/
def setAdd (f : File) (files : List File) : List File :=
  if f ∈ files then files else files ++ [f]

/-- The `BuildEventState` session tracker: the `fileSets` map (named set
id → file set), the `targetsConfigured` map (label → configured target),
and the `workspaceInfo`/`started` metadata. -/
structure BuildEventState where
  fileSets : List (String × NamedSetOfFiles)
  targetsConfigured : List (String × TargetConfigured)
  workspaceInfo : Option WorkspaceConfig
  started : Option BuildStarted
deriving DecidableEq, Repr

/-- The freshly constructed `BuildEventState` (both maps empty, no
metadata). -/
def emptyBuildEventState : BuildEventState :=
  { fileSets := [], targetsConfigured := [], workspaceInfo := none, started := none }

/-- `BuildEventState.handleNamedSetOfFiles`: store the file set under its
id. The source reads `event.bes.id?.namedSet` and
`event.bes.namedSetOfFiles` and asserts both non-null (`id?.id!`,
`fileSet!`); the model takes the asserted values as arguments. -/
def BuildEventState.handleNamedSetOfFiles (s : BuildEventState) (id : String)
    (fileSet : NamedSetOfFiles) : BuildEventState :=
  { s with fileSets := mapSet id fileSet s.fileSets }

/-- `BuildEventState.handleTargetConfigured`: store the configured target
under its label (same non-null assertions as above). -/
def BuildEventState.handleTargetConfigured (s : BuildEventState) (label : String)
    (configured : TargetConfigured) : BuildEventState :=
  { s with targetsConfigured := mapSet label configured s.targetsConfigured }

/-- `BuildEventState.reset`, exactly as written in the source: it clears
`fileSets` and nulls `workspaceInfo` and `started`. The source body has
no `this.targetsConfigured.clear()` line, so that map is left as is. -/
def BuildEventState.reset (s : BuildEventState) : BuildEventState :=
  { s with fileSets := [], workspaceInfo := none, started := none }

/-- `BuildEventState.collectFilesFromFileSet`, fueled. The source is
`collectFilesFromFileSet(fileSet, files)`: return at once on an
`undefined` set, otherwise add each of `fileSet.files || []` to the
accumulator and recurse through `collectFilesFromFileSetIds` on
`fileSet.fileSets` (each id being looked up in the `fileSets` map). The
source recursion carries no visited-set and no depth bound; `fuel` bounds
the depth of set expansions, and `none` means the depth did not suffice
(on a cyclic map the source call never returns). -/
def collectFilesFromFileSet (s : BuildEventState) :
    Nat → Option NamedSetOfFiles → List File → Option (List File)
  | _, none, files => some files
  | 0, some _, _ => none
  | Nat.succ fuel, some fs, files =>
    ((fs.fileSets).getD []).foldlM
      (fun acc id => collectFilesFromFileSet s fuel (mapGet id.id s.fileSets) acc)
      (((fs.files).getD []).foldl (fun acc f => setAdd f acc) files)

/-- `BuildEventState.collectFilesFromFileSetId`: guard on an absent id is
not needed here because the model's id is a value; the map lookup
`this.fileSets.get(id.id!)` feeds `collectFilesFromFileSet`, so a missing
id resolves to the `undefined`-set early return. -/
def collectFilesFromFileSetId (s : BuildEventState) (fuel : Nat)
    (id : NamedSetOfFilesId) (files : List File) : Option (List File) :=
  collectFilesFromFileSet s fuel (mapGet id.id s.fileSets) files

/-- `BuildEventState.collectFilesFromFileSetIds`: return at once when the
id list is `undefined`, otherwise resolve each id in order into the
accumulator. -/
def collectFilesFromFileSetIds (s : BuildEventState) (fuel : Nat)
    (ids : Option (List NamedSetOfFilesId)) (files : List File) : Option (List File) :=
  match ids with
  | none => some files
  | some l => l.foldlM (fun acc id => collectFilesFromFileSetId s fuel id acc) files

/-- JavaScript template-literal rendering of a possibly-`undefined`
string, as in the label `${event.bes.finished?.exitCode?.name} ...`. -/
def templateOptString : Option String → String
  | none => "undefined"
  | some str => str

/-- The label computation of the `BuildFinishedItem` constructor. The
constructor runs `Long.fromValue(event.bes.finished?.finishTimeMillis!)`
and `Long.fromValue(started?.startTimeMillis!)` before entering its
`try` block; `Long.fromValue` throws a `TypeError` when its argument is
`undefined` (it dereferences `val.low`), so a missing timestamp aborts
construction (`Except.error`). When both timestamps are present,
`end.sub(start)` does not throw, `timeDelta` is assigned a `Long` object
(truthy even at zero), and the label always carries the
`(<delta>ms)` parenthetical after the exit-code name. -/
def buildFinishedItemLabel (finished : BuildFinished) (started : Option BuildStarted) :
    Except String String :=
  match finished.finishTimeMillis with
  | none => Except.error "TypeError: Long.fromValue called on undefined finishTimeMillis"
  | some endMillis =>
    match started.bind (fun st => st.startTimeMillis) with
    | none => Except.error "TypeError: Long.fromValue called on undefined startTimeMillis"
    | some startMillis =>
      let timeDelta : Int := endMillis - startMillis
      let elapsed : String := "(" ++ toString timeDelta ++ "ms)"
      Except.ok (templateOptString finished.exitCodeName ++ " " ++ elapsed)

/-- One diagnostic marker (`IMarker`, modeled fields: position and
message). -/
structure IMarker where
  message : String
  startLineNumber : Nat
  startColumn : Nat
deriving DecidableEq, Repr

/-- The `BazelBuildEventItem` class hierarchy as a sum type. Each variant
carries its originating event plus the constructor arguments that the
modeled behavior reads (the computed label for the two
`BuildFinishedItem` subclasses, the file of a `FileItem`, the markers of
a `ProblemFileItem`, the detail of a `FailureDetailItem`). -/
inductive BazelBuildEventItem where
  | buildStarted (event : BazelBuildEvent)
  | buildSuccess (event : BazelBuildEvent) (label : String)
  | buildFailed (event : BazelBuildEvent) (label : String)
  | actionSuccess (event : BazelBuildEvent)
  | actionFailed (event : BazelBuildEvent)
  | testResultFailed (event : BazelBuildEvent)
  | targetComplete (event : BazelBuildEvent)
  | fileItem (event : BazelBuildEvent) (file : File)
  | problemFile (event : BazelBuildEvent) (uri : String) (markers : List IMarker)
  | failureDetailItem (event : BazelBuildEvent) (detail : FailureDetail)
deriving DecidableEq, Repr

/-- The `attention` getter of each item class. The base class returns
`false`; `BuildStartedItem`, `BuildFinishedItem` (hence its
`BuildSuccessItem`/`BuildFailedItem` subclasses), `ActionFailedItem` and
`TestResultFailedItem` override it to `true`; `TargetCompleteItem`
returns `!this.event.bes.completed?.success`. -/
def attention : BazelBuildEventItem → Bool
  | .buildStarted _ => true
  | .buildSuccess _ _ => true
  | .buildFailed _ _ => true
  | .actionSuccess _ => false
  | .actionFailed _ => true
  | .testResultFailed _ => true
  | .targetComplete e => !(match e.completed with | some c => c.success | none => false)
  | .fileItem _ _ => false
  | .problemFile _ _ _ => false
  | .failureDetailItem _ _ => false

/-- Recognizer for `item instanceof ActionSuccessItem`. -/
def isActionSuccessItem : BazelBuildEventItem → Bool
  | .actionSuccess _ => true
  | _ => false

/-- Recognizer for `BuildSuccessItem`. -/
def isBuildSuccessItem : BazelBuildEventItem → Bool
  | .buildSuccess _ _ => true
  | _ => false

/-- Recognizer for `BuildFailedItem`. -/
def isBuildFailedItem : BazelBuildEventItem → Bool
  | .buildFailed _ _ => true
  | _ => false

/-- `BuildEventProtocolView.addItem`: push the item at the end of
`this.items`. -/
def addItem (items : List BazelBuildEventItem) (item : BazelBuildEventItem) :
    List BazelBuildEventItem :=
  items ++ [item]

/-- `BuildEventProtocolView.replaceLastItem`: overwrite
`this.items[this.items.length - 1]`. It is only reached with a nonempty
list (the caller just inspected the last element). -/
def replaceLastItem (items : List BazelBuildEventItem) (item : BazelBuildEventItem) :
    List BazelBuildEventItem :=
  items.dropLast ++ [item]

/-- `BuildEventProtocolView.handleActionExecutedEventSuccess`: build an
`ActionSuccessItem`; when the current last item is an `ActionSuccessItem`
replace it in place, otherwise append. -/
def handleActionExecutedEventSuccess (items : List BazelBuildEventItem)
    (e : BazelBuildEvent) : List BazelBuildEventItem :=
  if Option.any isActionSuccessItem items.getLast? then
    replaceLastItem items (BazelBuildEventItem.actionSuccess e)
  else addItem items (BazelBuildEventItem.actionSuccess e)

/-- `BuildEventProtocolView.handleActionExecutedEvent`: dispatch on
`action.success`. -/
def handleActionExecutedEvent (items : List BazelBuildEventItem)
    (e : BazelBuildEvent) (action : ActionExecuted) : List BazelBuildEventItem :=
  if action.success then handleActionExecutedEventSuccess items e
  else addItem items (BazelBuildEventItem.actionFailed e)

/-- `BuildEventProtocolView.handleCompletedEvent`: append a
`TargetCompleteItem`. -/
def handleCompletedEvent (items : List BazelBuildEventItem)
    (e : BazelBuildEvent) : List BazelBuildEventItem :=
  addItem items (BazelBuildEventItem.targetComplete e)

/-- `BuildEventProtocolView.handleFinishedEvent`: filter `this.items`
down to the attention items, then append a `BuildSuccessItem` or
`BuildFailedItem` according to `finished.overallSuccess`. Both subclasses
run the `BuildFinishedItem` constructor, which can throw on missing
timestamps (see `buildFinishedItemLabel`); in that case the handler
aborts after the filter with nothing appended, modeled as
`Except.error`. -/
def handleFinishedEvent (st : BuildEventState) (items : List BazelBuildEventItem)
    (e : BazelBuildEvent) (finished : BuildFinished) :
    Except String (List BazelBuildEventItem) :=
  match buildFinishedItemLabel finished st.started with
  | Except.error msg => Except.error msg
  | Except.ok lbl =>
    if finished.overallSuccess then
      Except.ok (addItem (items.filter fun i => attention i) (BazelBuildEventItem.buildSuccess e lbl))
    else
      Except.ok (addItem (items.filter fun i => attention i) (BazelBuildEventItem.buildFailed e lbl))

/-- Resolution of the output groups of `TargetCompleteItem.getChildren`:
`for (const group of this.event.bes?.completed?.outputGroup || [])`
feeding `collectFilesFromFileSetIds` on one shared accumulator. -/
def collectFilesFromOutputGroups (s : BuildEventState) (fuel : Nat)
    (groups : List OutputGroup) (files : List File) : Option (List File) :=
  groups.foldlM (fun acc g => collectFilesFromFileSetIds s fuel g.fileSets acc) files

/-- `TargetCompleteItem.getChildren`: when a `failureDetail` is present
return the single `FailureDetailItem`; otherwise resolve the output
groups into a deduplicated file list and wrap each file in a `FileItem`.
The outer `none` only reports fuel exhaustion of the unguarded file-set
recursion. -/
def targetCompleteItemChildren (s : BuildEventState) (fuel : Nat)
    (e : BazelBuildEvent) : Option (List BazelBuildEventItem) :=
  match e.completed.bind (fun c => c.failureDetail) with
  | some detail => some [BazelBuildEventItem.failureDetailItem e detail]
  | none =>
    match collectFilesFromOutputGroups s fuel
        ((e.completed.bind (fun c => c.outputGroup)).getD []) [] with
    | none => none
    | some files => some (files.map (fun f => BazelBuildEventItem.fileItem e f))

/-- An opaque handle for a registered `ProblemMatcher` (the matcher engine
itself lives in `common/problemMatcher`, outside the embedded core). -/
structure ProblemMatcher where
  owner : String
deriving DecidableEq, Repr

/-- `FileProblems` is `Map<vscode.Uri, IMarker[]>` (its `undefined` arm is
expressed with `Option` at use sites). -/
abbrev FileProblems := List (String × List IMarker)

/-- `ProblemCollector.fileProblems`: look the matcher up by the action's
tool-type mnemonic; with no registered matcher return `undefined`. With a
matcher, inline file `contents` go to `fileContentProblems` — whose
source body unconditionally returns `undefined` — and a `uri` goes to the
IO-performing `fileUriProblems`, abstracted here as the parameter
`uriProblems`. -/
def fileProblems (registryGet : String → Option ProblemMatcher)
    (uriProblems : String → ProblemMatcher → String → Option FileProblems)
    (type : String) (file : File) : Option FileProblems :=
  match registryGet type with
  | none => none
  | some matcher =>
    match file.contents with
    | some _ => none
    | none =>
      match file.uri with
      | some uri => uriProblems type matcher uri
      | none => none

/-- `ProblemCollector.actionProblems`: successful actions yield no
problems; failed actions run `fileProblems` on `stderr` when present,
else on `stdout` when present, else yield nothing. -/
def actionProblems (registryGet : String → Option ProblemMatcher)
    (uriProblems : String → ProblemMatcher → String → Option FileProblems)
    (action : ActionExecuted) : Option FileProblems :=
  if action.success then none
  else
    match action.stderr with
    | some f => fileProblems registryGet uriProblems action.type f
    | none =>
      match action.stdout with
      | some f => fileProblems registryGet uriProblems action.type f
      | none => none

/-- `ActionFailedItem.getChildren`: when `actionProblems` yields nothing
the item collapses to a leaf (`undefined` children); otherwise each
`(uri, markers)` entry becomes a `ProblemFileItem`. -/
def actionFailedItemChildren (e : BazelBuildEvent) (problems : Option FileProblems) :
    Option (List BazelBuildEventItem) :=
  match problems with
  | none => none
  | some entries => some (entries.map (fun p => BazelBuildEventItem.problemFile e p.1 p.2))

/-- The displayed-list invariant of claim C2: no two adjacent
`ActionSuccessItem` entries. -/
def noConsecutiveActionSuccess : List BazelBuildEventItem → Bool
  | x :: y :: rest =>
    !(isActionSuccessItem x && isActionSuccessItem y) && noConsecutiveActionSuccess (y :: rest)
  | _ => true

/-! ### Helper lemmas -/

theorem mapGet_mapSet_self {α : Type} (k : String) (v : α) (m : List (String × α)) :
    mapGet k (mapSet k v m) = some v := by
  induction m with
  | nil => simp [mapSet, mapGet]
  | cons p rest ih =>
    obtain ⟨k', v'⟩ := p
    by_cases h : k' = k
    · simp [mapSet, mapGet, h]
    · simp [mapSet, mapGet, h, ih]

theorem collectFilesFromFileSet_none (s : BuildEventState) (fuel : Nat) (files : List File) :
    collectFilesFromFileSet s fuel none files = some files := by
  cases fuel <;> rfl

/-! ### Claim theorems -/

/-- Concrete pre-state for the `reset` counterexample: one file set, one
configured target, and both metadata fields populated. -/
def resetCexState : BuildEventState :=
  { fileSets := [("A", { files := some [], fileSets := none })],
    targetsConfigured := [("//pkg:target", { targetKind := some "cc_library rule" })],
    workspaceInfo := some { localExecRoot := some "/exec" },
    started := some { startTimeMillis := some 1000 } }

/-- C3 counterexample: on a state holding one configured target,
`reset()` leaves the target-configured map untouched and nonempty — the
source body clears `fileSets`, `workspaceInfo` and `started` but has no
`this.targetsConfigured.clear()` line, so the resulting state is not
empty. -/
theorem reset_keeps_targetsConfigured_cex :
    (BuildEventState.reset resetCexState).targetsConfigured =
      [("//pkg:target", { targetKind := some "cc_library rule" })] ∧
    (BuildEventState.reset resetCexState).targetsConfigured ≠ [] := by
  exact ⟨rfl, by decide⟩

/-- C3 (amended): `reset()` clears the file-set map and the
workspace-info and started metadata, but leaves the target-configured
map exactly as it was. -/
theorem reset_clears_except_targetsConfigured (s : BuildEventState) :
    (s.reset).fileSets = [] ∧ (s.reset).workspaceInfo = none ∧
    (s.reset).started = none ∧ (s.reset).targetsConfigured = s.targetsConfigured :=
  ⟨rfl, rfl, rfl, rfl⟩

/-- C9: `reset()` is idempotent — applying it twice yields exactly the
state of applying it once, for every starting state. -/
theorem reset_idempotent (s : BuildEventState) : (s.reset).reset = s.reset := rfl

/-- C10: when two `namedSetOfFiles` events carry the same id, the second
stored file set wins — the map lookup yields the later set, and the
file-collection resolver for that id proceeds from the later set. -/
theorem handleNamedSetOfFiles_last_write_wins (s : BuildEventState) (id : String)
    (fs1 fs2 : NamedSetOfFiles) :
    mapGet id ((s.handleNamedSetOfFiles id fs1).handleNamedSetOfFiles id fs2).fileSets =
      some fs2 ∧
    ∀ fuel files,
      collectFilesFromFileSetId ((s.handleNamedSetOfFiles id fs1).handleNamedSetOfFiles id fs2)
          fuel { id := id } files =
        collectFilesFromFileSet ((s.handleNamedSetOfFiles id fs1).handleNamedSetOfFiles id fs2)
          fuel (some fs2) files := by
  have hget : mapGet id ((s.handleNamedSetOfFiles id fs1).handleNamedSetOfFiles id fs2).fileSets
      = some fs2 := mapGet_mapSet_self id fs2 (mapSet id fs1 s.fileSets)
  refine ⟨hget, fun fuel files => ?_⟩
  unfold collectFilesFromFileSetId
  rw [show ({ id := id } : NamedSetOfFilesId).id = id from rfl, hget]

/-- C7: a file-set id absent from the tracker map resolves to the
accumulator unchanged (zero files added, no failure), and a `completed`
event whose single output group references only that id yields an empty
`FileItem` child list. -/
theorem missing_fileSetId_zero_children (s : BuildEventState) (fuel : Nat)
    (id : NamedSetOfFilesId) (files : List File) (e : BazelBuildEvent)
    (hmiss : mapGet id.id s.fileSets = none)
    (hc : e.completed = some { success := true, outputGroup := some [{ fileSets := some [id] }], failureDetail := none }) :
    collectFilesFromFileSetId s fuel id files = some files ∧
    targetCompleteItemChildren s fuel e = some [] := by
  have hid : ∀ fs, collectFilesFromFileSetId s fuel id fs = some fs := by
    intro fs
    unfold collectFilesFromFileSetId
    rw [hmiss, collectFilesFromFileSet_none]
  refine ⟨hid files, ?_⟩
  unfold targetCompleteItemChildren collectFilesFromOutputGroups collectFilesFromFileSetIds
  rw [hc]
  simp [List.foldlM_cons, List.foldlM_nil, hid]

/-- C5: evaluation of the `BuildFinishedItem` label. With start
timestamp 1000 and finish timestamp 2500 the label is the exit-code name
followed by "(1500ms)" (exact integer subtraction). With the start
timestamp absent, `Long.fromValue(undefined)` throws before the `try`
block, so construction fails instead of omitting the parenthetical. -/
theorem buildFinishedItemLabel_eval :
    buildFinishedItemLabel
        { overallSuccess := true, finishTimeMillis := some 2500, exitCodeName := some "SUCCESS" }
        (some { startTimeMillis := some 1000 }) = Except.ok "SUCCESS (1500ms)" ∧
    buildFinishedItemLabel
        { overallSuccess := true, finishTimeMillis := some 2500, exitCodeName := some "SUCCESS" }
        none =
      Except.error "TypeError: Long.fromValue called on undefined startTimeMillis" := by
  constructor <;> rfl

/-- The self-referencing named file set exhibiting the missing cycle
guard: set "A" holds no direct files and references set "A" itself. -/
def cycFileSet : NamedSetOfFiles := { files := some [], fileSets := some [{ id := "A" }] }

/-- A tracker state whose file-set map sends "A" to `cycFileSet`. -/
def cycState : BuildEventState :=
  { fileSets := [("A", cycFileSet)], targetsConfigured := [], workspaceInfo := none,
    started := none }

/-- A `completed` event whose only output group references set "A". -/
def cycEvent : BazelBuildEvent :=
  { sequenceNumber := 7, completed := some { success := true, outputGroup := some [{ fileSets := some [{ id := "A" }] }], failureDetail := none } }

theorem collectFilesFromFileSet_cyc (fuel : Nat) (files : List File) :
    collectFilesFromFileSet cycState fuel (some cycFileSet) files = none := by
  induction fuel generalizing files with
  | zero => rfl
  | succ n ih =>
    have hmap : mapGet "A" cycState.fileSets = some cycFileSet := rfl
    have hfs : cycFileSet.fileSets = some [{ id := "A" }] := rfl
    have hfi : cycFileSet.files = some [] := rfl
    simp [collectFilesFromFileSet, hfs, hfi, hmap, ih]

/-- C4: the source resolver has neither a visited-id guard nor a depth
bound; on the cyclic map of `cycState` no recursion depth whatsoever lets
`collectFilesFromFileSetIds` return (every fuel yields `none`), which is
the fueled-embedding statement of the source recursing forever, and the
children of a `completed` event referencing set "A" likewise never
resolve. -/
theorem collect_cyclic_never_returns :
    (∀ fuel files,
      collectFilesFromFileSetIds cycState fuel (some [{ id := "A" }]) files = none) ∧
    (∀ fuel, targetCompleteItemChildren cycState fuel cycEvent = none) := by
  have hids : ∀ fuel files,
      collectFilesFromFileSetIds cycState fuel (some [{ id := "A" }]) files = none := by
    intro fuel files
    have hone : collectFilesFromFileSetId cycState fuel { id := "A" } files = none := by
      unfold collectFilesFromFileSetId
      have : mapGet "A" cycState.fileSets = some cycFileSet := rfl
      rw [show ({ id := "A" } : NamedSetOfFilesId).id = "A" from rfl, this,
        collectFilesFromFileSet_cyc]
    simp [collectFilesFromFileSetIds, List.foldlM, hone]
  refine ⟨hids, fun fuel => ?_⟩
  unfold targetCompleteItemChildren collectFilesFromOutputGroups
  simp [cycEvent, List.foldlM, hids fuel []]

/-- C6: storing named set "A" = {f1, f2} and then resolving a
`completed` event whose output group references id "A" yields exactly
the two `FileItem` children for f1 and f2. -/
theorem namedSet_completed_roundtrip (f1 f2 : File) (e : BazelBuildEvent) (fuel : Nat)
    (hne : f1 ≠ f2) (hfuel : 1 ≤ fuel)
    (hc : e.completed = some { success := true, outputGroup := some [{ fileSets := some [{ id := "A" }] }], failureDetail := none }) :
    targetCompleteItemChildren
        (emptyBuildEventState.handleNamedSetOfFiles "A" { files := some [f1, f2], fileSets := none })
        fuel e =
      some [BazelBuildEventItem.fileItem e f1, BazelBuildEventItem.fileItem e f2] := by
  obtain ⟨n, rfl⟩ : ∃ n, fuel = n + 1 := ⟨fuel - 1, by omega⟩
  have hne' : ¬(f2 = f1) := fun h => hne h.symm
  unfold targetCompleteItemChildren collectFilesFromOutputGroups collectFilesFromFileSetIds
    collectFilesFromFileSetId
  rw [hc]
  simp [emptyBuildEventState, BuildEventState.handleNamedSetOfFiles, mapSet, mapGet,
    List.foldlM, collectFilesFromFileSet, setAdd, hne']

theorem noConsec_concat (xs : List BazelBuildEventItem) (a : BazelBuildEventItem) :
    noConsecutiveActionSuccess (xs ++ [a]) =
      (noConsecutiveActionSuccess xs &&
        !(Option.any isActionSuccessItem xs.getLast? && isActionSuccessItem a)) := by
  induction xs with
  | nil => simp [noConsecutiveActionSuccess]
  | cons x xs ih =>
    cases xs with
    | nil => simp [noConsecutiveActionSuccess]
    | cons y ys =>
      show (!(isActionSuccessItem x && isActionSuccessItem y) &&
          noConsecutiveActionSuccess ((y :: ys) ++ [a])) = _
      rw [ih, List.getLast?_cons_cons,
        show noConsecutiveActionSuccess (x :: y :: ys)
            = (!(isActionSuccessItem x && isActionSuccessItem y) &&
              noConsecutiveActionSuccess (y :: ys)) from rfl,
        Bool.and_assoc]

theorem noConsec_handleActionSuccess (items : List BazelBuildEventItem) (e : BazelBuildEvent)
    (h : noConsecutiveActionSuccess items = true) :
    noConsecutiveActionSuccess (handleActionExecutedEventSuccess items e) = true := by
  unfold handleActionExecutedEventSuccess
  cases hlast : items.getLast? with
  | none =>
    have hnil : items = [] := List.getLast?_eq_none_iff.mp hlast
    subst hnil
    rfl
  | some last =>
    by_cases hAS : isActionSuccessItem last = true
    · have hitems : items.dropLast ++ [last] = items := List.dropLast_append_getLast? last hlast
      simp only [hlast, Option.any_some, hAS, if_true]
      rw [replaceLastItem, noConsec_concat]
      rw [← hitems, noConsec_concat] at h
      simp only [hAS, Bool.and_true] at h
      simpa [show isActionSuccessItem (BazelBuildEventItem.actionSuccess e) = true from rfl]
        using h
    · have hAS' : isActionSuccessItem last = false := by
        cases hv : isActionSuccessItem last with
        | false => rfl
        | true => exact absurd hv hAS
      simp only [hlast, Option.any_some, hAS', if_false, Bool.false_eq_true]
      rw [addItem, noConsec_concat, hlast]
      simp [hAS', h]

theorem noConsec_foldl (es : List BazelBuildEvent) :
    ∀ items, noConsecutiveActionSuccess items = true →
      noConsecutiveActionSuccess (es.foldl handleActionExecutedEventSuccess items) = true := by
  induction es with
  | nil => intro items h; simpa using h
  | cons e es ih =>
    intro items h
    rw [List.foldl_cons]
    exact ih _ (noConsec_handleActionSuccess items e h)

/-- C2: processing any sequence of successful `action` events preserves
the invariant that the displayed list holds no two consecutive
`ActionSuccessItem` entries; and whenever the current last item is an
`ActionSuccessItem`, the handler replaces it in place instead of
appending. -/
theorem actionSuccess_collapse_invariant (es : List BazelBuildEvent)
    (items : List BazelBuildEventItem)
    (h : noConsecutiveActionSuccess items = true) :
    noConsecutiveActionSuccess (es.foldl handleActionExecutedEventSuccess items) = true ∧
    ∀ e last, items.getLast? = some last → isActionSuccessItem last = true →
      handleActionExecutedEventSuccess items e =
        replaceLastItem items (BazelBuildEventItem.actionSuccess e) := by
  refine ⟨noConsec_foldl es items h, fun e last hlast hAS => ?_⟩
  unfold handleActionExecutedEventSuccess
  simp [hlast, hAS]

/-- C1: when `handleFinishedEvent` completes (the `BuildFinishedItem`
constructor did not throw), every item of the resulting list has
attention=true, the last item is the terminal `BuildSuccessItem` exactly
when `overallSuccess` holds and `BuildFailedItem` otherwise, every
`BuildStartedItem` present before the event survives the filtering, and
`BuildStartedItem.attention` is identically true. -/
theorem handleFinishedEvent_attention (st : BuildEventState)
    (items : List BazelBuildEventItem) (e : BazelBuildEvent) (finished : BuildFinished)
    (result : List BazelBuildEventItem)
    (h : handleFinishedEvent st items e finished = Except.ok result) :
    (∀ i ∈ result, attention i = true) ∧
    (∃ lbl, result.getLast? = some (if finished.overallSuccess then
        BazelBuildEventItem.buildSuccess e lbl else BazelBuildEventItem.buildFailed e lbl)) ∧
    (∀ e', BazelBuildEventItem.buildStarted e' ∈ items →
      BazelBuildEventItem.buildStarted e' ∈ result) ∧
    (∀ e', attention (BazelBuildEventItem.buildStarted e') = true) := by
  unfold handleFinishedEvent at h
  split at h
  · cases h
  · rename_i lbl hlbl
    split at h
    · rename_i hs
      injection h with h
      subst h
      refine ⟨?_, ⟨lbl, ?_⟩, ?_, fun e' => rfl⟩
      · intro i hi
        rcases List.mem_append.mp hi with hk | hk
        · exact (List.mem_filter.mp hk).2
        · rcases List.mem_singleton.mp hk with rfl; rfl
      · rw [if_pos hs]
        exact List.getLast?_concat _
      · intro e' hm
        exact List.mem_append_left _ (List.mem_filter.mpr ⟨hm, rfl⟩)
    · rename_i hs
      injection h with h
      subst h
      refine ⟨?_, ⟨lbl, ?_⟩, ?_, fun e' => rfl⟩
      · intro i hi
        rcases List.mem_append.mp hi with hk | hk
        · exact (List.mem_filter.mp hk).2
        · rcases List.mem_singleton.mp hk with rfl; rfl
      · rw [if_neg hs]
        exact List.getLast?_concat _
      · intro e' hm
        exact List.mem_append_left _ (List.mem_filter.mpr ⟨hm, rfl⟩)

/-- C8: for a failed action, problem resolution runs the
mnemonic-selected matcher against stderr whenever stderr is present
(stdout is not consulted), falls back to stdout only when stderr is
absent, and when no matcher is registered for the mnemonic yields no
problems, so `ActionFailedItem.getChildren` returns nothing and the item
is a leaf. -/
theorem actionProblems_stderr_preference
    (registryGet : String → Option ProblemMatcher)
    (uriProblems : String → ProblemMatcher → String → Option FileProblems)
    (a : ActionExecuted) (h : a.success = false) :
    (∀ f, a.stderr = some f →
      actionProblems registryGet uriProblems a =
        fileProblems registryGet uriProblems a.type f) ∧
    (∀ g, a.stderr = none → a.stdout = some g →
      actionProblems registryGet uriProblems a =
        fileProblems registryGet uriProblems a.type g) ∧
    (registryGet a.type = none →
      actionProblems registryGet uriProblems a = none ∧
      ∀ e, actionFailedItemChildren e (actionProblems registryGet uriProblems a) = none) := by
  refine ⟨?_, ?_, ?_⟩
  · intro f hf
    simp [actionProblems, h, hf]
  · intro g hnf hg
    simp [actionProblems, h, hnf, hg]
  · intro hreg
    have hval : actionProblems registryGet uriProblems a = none := by
      cases hst : a.stderr <;> cases hso : a.stdout <;>
        simp [actionProblems, fileProblems, h, hreg, hst, hso]
    exact ⟨hval, fun e => by rw [hval]; rfl⟩

/-! ### Witnesses -/

/-- Session state for the `finished`-event witness: a build started at
millisecond 1000. -/
def finStateW : BuildEventState :=
  { fileSets := [], targetsConfigured := [], workspaceInfo := none,
    started := some { startTimeMillis := some 1000 } }

/-- A successful `finished` payload at millisecond 2500. -/
def finishedW : BuildFinished :=
  { overallSuccess := true, finishTimeMillis := some 2500, exitCodeName := some "SUCCESS" }

/-- The `finished` event envelope for the witness. -/
def finEventW : BazelBuildEvent := { sequenceNumber := 5, finished := some finishedW }

/-- The `started` event envelope for the witness. -/
def startEventW : BazelBuildEvent :=
  { sequenceNumber := 1, started := some { startTimeMillis := some 1000 } }

/-- A successful-action event envelope for the witnesses. -/
def actionOkEventW : BazelBuildEvent := { sequenceNumber := 2 }

/-- A concrete displayed list: the started item followed by one
successful-action item. -/
def finItemsW : List BazelBuildEventItem :=
  [BazelBuildEventItem.buildStarted startEventW, BazelBuildEventItem.actionSuccess actionOkEventW]

/-- The list `handleFinishedEvent` produces from `finItemsW`. -/
def finResultW : List BazelBuildEventItem :=
  [BazelBuildEventItem.buildStarted startEventW,
    BazelBuildEventItem.buildSuccess finEventW "SUCCESS (1500ms)"]

theorem handleFinishedEvent_attention_witness :
    handleFinishedEvent finStateW finItemsW finEventW finishedW = Except.ok finResultW ∧
    (∀ i ∈ finResultW, attention i = true) := by
  have h : handleFinishedEvent finStateW finItemsW finEventW finishedW =
      Except.ok finResultW := rfl
  exact ⟨h, (handleFinishedEvent_attention finStateW finItemsW finEventW finishedW
    finResultW h).1⟩

theorem actionSuccess_collapse_invariant_witness :
    noConsecutiveActionSuccess finItemsW = true ∧
    noConsecutiveActionSuccess
      ([actionOkEventW, actionOkEventW].foldl handleActionExecutedEventSuccess finItemsW)
      = true := by
  have h : noConsecutiveActionSuccess finItemsW = true := rfl
  exact ⟨h, (actionSuccess_collapse_invariant [actionOkEventW, actionOkEventW] finItemsW h).1⟩

/-- First file of the round-trip witness. -/
def f1W : File := { name := "f1", uri := none, contents := none }

/-- Second file of the round-trip witness. -/
def f2W : File := { name := "f2", uri := none, contents := none }

/-- The `completed` event of the round-trip witness, referencing file-set
id "A". -/
def completedEventW : BazelBuildEvent :=
  { sequenceNumber := 4, completed := some { success := true, outputGroup := some [{ fileSets := some [{ id := "A" }] }], failureDetail := none } }

theorem namedSet_completed_roundtrip_witness :
    f1W ≠ f2W ∧
    targetCompleteItemChildren
        (emptyBuildEventState.handleNamedSetOfFiles "A" { files := some [f1W, f2W], fileSets := none })
        1 completedEventW =
      some [BazelBuildEventItem.fileItem completedEventW f1W,
        BazelBuildEventItem.fileItem completedEventW f2W] := by
  have hne : f1W ≠ f2W := by decide
  exact ⟨hne, namedSet_completed_roundtrip f1W f2W completedEventW 1 hne (by omega) rfl⟩

/-- A file-set id registered in no tracker map. -/
def missIdW : NamedSetOfFilesId := { id := "missing" }

/-- A `completed` event referencing only the unregistered id. -/
def missEventW : BazelBuildEvent :=
  { sequenceNumber := 3, completed := some { success := true, outputGroup := some [{ fileSets := some [missIdW] }], failureDetail := none } }

theorem missing_fileSetId_zero_children_witness :
    mapGet missIdW.id emptyBuildEventState.fileSets = none ∧
    collectFilesFromFileSetId emptyBuildEventState 5 missIdW [] = some [] ∧
    targetCompleteItemChildren emptyBuildEventState 5 missEventW = some [] := by
  have hmiss : mapGet missIdW.id emptyBuildEventState.fileSets = none := rfl
  have hc : missEventW.completed = some { success := true, outputGroup := some [{ fileSets := some [missIdW] }], failureDetail := none } := rfl
  have hboth := missing_fileSetId_zero_children emptyBuildEventState 5 missIdW [] missEventW
    hmiss hc
  exact ⟨hmiss, hboth.1, hboth.2⟩

/-- An empty problem-matcher registry. -/
def regW : String → Option ProblemMatcher := fun _ => none

/-- A URI resolver producing no problems (its value is irrelevant under
an empty registry). -/
def uriW : String → ProblemMatcher → String → Option FileProblems := fun _ _ _ => none

/-- The stderr file reference of the failed-action witness. -/
def stderrFileW : File := { name := "stderr-1", uri := some "file:///tmp/stderr-1", contents := none }

/-- A failed action with stderr present and a mnemonic that no matcher is
registered under. -/
def failedActionW : ActionExecuted :=
  { success := false, type := "CppCompile", stderr := some stderrFileW, stdout := none }

/-- The event envelope of the failed-action witness. -/
def actionEventW : BazelBuildEvent := { sequenceNumber := 6, action := some failedActionW }

theorem actionProblems_stderr_preference_witness :
    failedActionW.success = false ∧
    actionProblems regW uriW failedActionW = none ∧
    actionFailedItemChildren actionEventW (actionProblems regW uriW failedActionW) = none := by
  have h : failedActionW.success = false := rfl
  have hreg : regW failedActionW.type = none := rfl
  have hmain := (actionProblems_stderr_preference regW uriW failedActionW h).2.2 hreg
  exact ⟨h, hmain.1, hmain.2 actionEventW⟩

end Bep
